import Mathlib

/-!
Shallow embedding of the financial-report dashboard (src/app.py).

The program scans a spreadsheet grid (column 0 = description, column 5 =
value), classifies each extracted line item by keyword matching, and
computes headline metrics and chart aggregates.  Numeric cell values are
modelled as rationals; a pandas cell is modelled by the three observations
the code makes of it: whether it is present (pd.notna), its string form
(str), and its float form when float() succeeds (else it raises, modelled
as none).
-/

set_option autoImplicit false

namespace FinReport

/-- Bool test: the first list is an initial segment of the second. -/
def listHasPre : List Char → List Char → Bool
  | [], _ => true
  | _ :: _, [] => false
  | a :: as, b :: bs => a == b && listHasPre as bs

/-- Bool test: the first list occurs contiguously inside the second
(the semantics of the Python expression needle in haystack on strings). -/
def listHasSub (needle : List Char) : List Char → Bool
  | [] => listHasPre needle []
  | b :: bs => listHasPre needle (b :: bs) || listHasSub needle bs

/-- Python needle in haystack on strings. -/
def strHasSub (hay needle : String) : Bool :=
  listHasSub needle.toList hay.toList

/-- Python str.lower, character by character (ASCII case mapping). -/
def strToLower (s : String) : String :=
  String.mk (s.toList.map Char.toLower)

/-- Python str.strip: remove leading and trailing whitespace. -/
def strTrim (s : String) : String :=
  String.mk (((s.toList.dropWhile Char.isWhitespace).reverse.dropWhile Char.isWhitespace).reverse)

/-- The six category labels used by the program. -/
def categories : List String :=
  ["Revenue", "Expenses", "Profit/Loss", "Tax & Interest", "Depreciation", "Other"]

/-- Embedding of classify_line_item (src/app.py lines 184-199): lower-case
the description, then test keyword groups in order by substring match. -/
def classify_line_item (description : String) : String :=
  let description_lower := strToLower description
  if ["revenue", "income", "sales", "turnover"].any (fun word => strHasSub description_lower word) then
    "Revenue"
  else if ["cost", "expense", "expenditure", "operating", "admin", "selling"].any (fun word => strHasSub description_lower word) then
    "Expenses"
  else if ["profit", "loss", "net", "ebitda", "ebit"].any (fun word => strHasSub description_lower word) then
    "Profit/Loss"
  else if ["tax", "interest", "finance"].any (fun word => strHasSub description_lower word) then
    "Tax & Interest"
  else if ["depreciation", "amortization"].any (fun word => strHasSub description_lower word) then
    "Depreciation"
  else
    "Other"

/-- Modelled from the spec (section 6): the classifier configuration table,
ordered keyword groups with their category, used to state the refinement
claim that classify_line_item is first-match over this ordered table. -/
def keyword_table : List (List String × String) :=
  [ (["revenue", "income", "sales", "turnover"], "Revenue"),
    (["cost", "expense", "expenditure", "operating", "admin", "selling"], "Expenses"),
    (["profit", "loss", "net", "ebitda", "ebit"], "Profit/Loss"),
    (["tax", "interest", "finance"], "Tax & Interest"),
    (["depreciation", "amortization"], "Depreciation") ]

/-- First keyword group (by substring match) that matches wins; default Other. -/
def first_match (d : String) : List (List String × String) → String
  | [] => "Other"
  | (words, cat) :: rest =>
      if words.any (fun word => strHasSub d word) then cat else first_match d rest

/-- The spec-side classifier: case-insensitive first-match over the ordered table. -/
def classify_spec (description : String) : String :=
  first_match (strToLower description) keyword_table

/-- One row of the resulting data frame: Description, Value, Category, Abs_Value
(src/app.py lines 166-171). -/
structure LineItem where
  Description : String
  Value : ℚ
  Category : String
  Abs_Value : ℚ
  deriving DecidableEq, Repr

/-- A spreadsheet cell, seen through the three operations the code applies:
pd.notna, str, float (none when float() raises ValueError/TypeError). -/
structure Cell where
  present : Bool
  asStr : String
  asFloat : Option ℚ
  deriving DecidableEq, Repr

/-- A cell read as missing (pd.notna is false). -/
def blankCell : Cell := { present := false, asStr := "", asFloat := none }

/-- The uploaded source: either read_excel raises (unreadable source) or it
yields a grid of rows of cells. -/
inductive Upload where
  | unreadable
  | grid (rows : List (List Cell))

/-- Python str.isdigit: non-empty and every character a digit. -/
def pyIsDigit (s : String) : Bool :=
  !s.isEmpty && s.toList.all (fun c => c.isDigit)

/-- The boilerplate header strings excluded by the scan (src/app.py line 162). -/
def headerStrings : List String :=
  ["DESCRIPTION", "UNITECH - TOSL KSA", "INCOME STATEMENT_AS OF JULY 2025"]

/-- The description filter of the scan loop (src/app.py lines 161-164):
truthy, not a boilerplate header, not purely digits, longer than 2. -/
def descriptionOk (description : String) : Prop :=
  description ≠ "" ∧
  description ∉ headerStrings ∧
  ¬ pyIsDigit description = true ∧
  2 < description.length

instance (description : String) : Decidable (descriptionOk description) := by
  unfold descriptionOk; infer_instance

/-- The body of the scan loop for one grid row (src/app.py lines 155-173):
require more than 5 cells, both the description cell (0) and value cell (5)
present, float() to succeed on the value, and the trimmed description to
pass the filter; emit the record or skip the row. -/
def scanRow (row : List Cell) : Option LineItem :=
  if 5 < row.length then
    match row[0]?, row[5]? with
    | some c0, some c5 =>
      if c0.present = true ∧ c5.present = true then
        match c5.asFloat with
        | some value =>
            if descriptionOk (strTrim c0.asStr) then
              some { Description := strTrim c0.asStr
                     Value := value
                     Category := classify_line_item (strTrim c0.asStr)
                     Abs_Value := |value| }
            else none
        | none => none
      else none
    | _, _ => none
  else none

/-- Embedding of load_data_from_upload (src/app.py lines 146-182): on an
unreadable source the exception handler returns None; otherwise collect the
rows the scan accepts and return them, or None when no row was accepted. -/
def load_data_from_upload : Upload → Option (List LineItem)
  | Upload.unreadable => none
  | Upload.grid rows =>
      let financial_data := rows.filterMap scanRow
      if financial_data ≠ [] then some financial_data else none

/-- Embedding of create_sample_data (src/app.py lines 201-215): the hardcoded
demonstration dataset. -/
def create_sample_data : List LineItem :=
  [ { Description := "Total Revenue", Value := 175595668.23, Category := "Revenue", Abs_Value := 175595668.23 },
    { Description := "Revenue (Other Income)", Value := -91082.5, Category := "Revenue", Abs_Value := 91082.5 },
    { Description := "Cost of Goods Sold", Value := -162826952.23, Category := "Expenses", Abs_Value := 162826952.23 },
    { Description := "Operating Expenses", Value := -8500000, Category := "Expenses", Abs_Value := 8500000 },
    { Description := "Administrative Expenses", Value := -2300000, Category := "Expenses", Abs_Value := 2300000 },
    { Description := "Depreciation", Value := -1200000, Category := "Depreciation", Abs_Value := 1200000 },
    { Description := "Interest Expense", Value := -800000, Category := "Tax & Interest", Abs_Value := 800000 },
    { Description := "Tax Expense", Value := -1500000, Category := "Tax & Interest", Abs_Value := 1500000 },
    { Description := "Net Income", Value := 2250000, Category := "Profit/Loss", Abs_Value := 2250000 } ]

/-- total_revenue as computed in main (src/app.py line 477). -/
def total_revenue (df : List LineItem) : ℚ :=
  ((df.filter (fun it => it.Category == "Revenue")).map (fun it => it.Value)).sum

/-- total_expenses as computed in main (src/app.py line 478). -/
def total_expenses (df : List LineItem) : ℚ :=
  |((df.filter (fun it => it.Category == "Expenses")).map (fun it => it.Value)).sum|

/-- net_income as computed in main (src/app.py line 479). -/
def net_income (df : List LineItem) : ℚ :=
  total_revenue df - total_expenses df

/-- profit_margin as computed in main (src/app.py line 480). -/
def profit_margin (df : List LineItem) : ℚ :=
  if total_revenue df > 0 then net_income df / total_revenue df * 100 else 0

/-- The four headline metrics of the spec data model. -/
structure MetricsSnapshot where
  totalRevenue : ℚ
  totalExpenses : ℚ
  netIncome : ℚ
  profitMarginPercent : ℚ
  deriving DecidableEq, Repr

/-- The metric computation of main, lines 476-480, bundled. -/
def compute_metrics (df : List LineItem) : MetricsSnapshot :=
  { totalRevenue := total_revenue df
    totalExpenses := total_expenses df
    netIncome := net_income df
    profitMarginPercent := profit_margin df }

/-- The category filter of main (src/app.py lines 459-462). -/
def filter_by_category (df : List LineItem) (selected_category : String) : List LineItem :=
  if selected_category ≠ "All" then df.filter (fun it => it.Category == selected_category) else df

set_option linter.unusedVariables false in
/-- The metric cards rendered by main for a given filter selection: main
computes them from df, the full session dataset (src/app.py lines 476-480),
not from df_filtered. -/
def main_displayed_metrics (df : List LineItem) (selected_category : String) : MetricsSnapshot :=
  compute_metrics df

/-- The profit margin of create_kpi_chart (src/app.py lines 339-342). -/
def create_kpi_chart_margin (df : List LineItem) : ℚ :=
  let tr := ((df.filter (fun it => it.Category == "Revenue")).map (fun it => it.Value)).sum
  let te := |((df.filter (fun it => it.Category == "Expenses")).map (fun it => it.Value)).sum|
  let ni := tr - te
  if tr > 0 then ni / tr * 100 else 0

/-- The groupby of create_enhanced_pie_chart (src/app.py line 266): per
category present in the frame, the sum of Abs_Value over its rows.  The
key order of the pandas groupby (sorted) is irrelevant to the claims; the
keys are the distinct categories of the frame. -/
def category_totals (df : List LineItem) : List (String × ℚ) :=
  ((df.map (fun it => it.Category)).dedup).map
    (fun c => (c, ((df.filter (fun it => it.Category == c)).map (fun it => it.Abs_Value)).sum))

/-- The per-item invariant of the spec data model: stored absolute value is
abs of the value, the description is non-empty, the category is one of the
six labels. -/
def item_invariant (it : LineItem) : Prop :=
  it.Abs_Value = |it.Value| ∧ it.Description ≠ "" ∧ it.Category ∈ categories

/-- Characterization of the rows the scan accepts, used by claim C7: cells 0
and 5 exist and are present, the value parses, the trimmed description
passes the filter. -/
def rowAccepted (row : List Cell) : Prop :=
  5 < row.length ∧
  ∃ c0 c5, row[0]? = some c0 ∧ row[5]? = some c5 ∧
    c0.present = true ∧ c5.present = true ∧
    (c5.asFloat).isSome = true ∧
    descriptionOk (strTrim c0.asStr)

/-- A grid row whose value cell holds exactly zero and whose description
passes every filter of the scan. -/
def zeroRow : List Cell :=
  [ { present := true, asStr := "Cash at bank", asFloat := none },
    blankCell, blankCell, blankCell, blankCell,
    { present := true, asStr := "0", asFloat := some 0 } ]

/-- The line item the scan produces from zeroRow. -/
def zeroItem : LineItem :=
  { Description := "Cash at bank", Value := 0, Category := "Other", Abs_Value := 0 }

/-- A grid row that scans to a revenue line item of value 100. -/
def salesRow : List Cell :=
  [ { present := true, asStr := "Sales", asFloat := none },
    blankCell, blankCell, blankCell, blankCell,
    { present := true, asStr := "100", asFloat := some 100 } ]

/-- The line item the scan produces from salesRow. -/
def salesItem : LineItem :=
  { Description := "Sales", Value := 100, Category := "Revenue", Abs_Value := 100 }

/-- A grid row holding only boilerplate captions: readable, but rejected by
the scan (its value cell does not parse and its description is a header). -/
def headerRow : List Cell :=
  [ { present := true, asStr := "DESCRIPTION", asFloat := none },
    blankCell, blankCell, blankCell, blankCell,
    { present := true, asStr := "VALUE", asFloat := none } ]

/-- A readable grid in which no row passes the scan filters. -/
def headerGrid : List (List Cell) :=
  [headerRow]

/-- A two-item frame with one revenue and one expense row, categories as the
classifier assigns them. -/
def twoItemFrame : List LineItem :=
  [ { Description := "Sales", Value := 100, Category := "Revenue", Abs_Value := 100 },
    { Description := "Rent Cost", Value := -40, Category := "Expenses", Abs_Value := 40 } ]

/-- A frame whose single revenue item is negative. -/
def negativeRevenueFrame : List LineItem :=
  [ { Description := "Sales Return", Value := -100, Category := "Revenue", Abs_Value := 100 } ]

/-- The classifier always lands in the six-label enumeration. -/
lemma classify_mem_categories (description : String) :
    classify_line_item description ∈ categories := by
  simp only [classify_line_item]
  split_ifs <;> simp [categories]

/-- Any line item the scan emits satisfies the per-item invariant. -/
lemma scanRow_invariant {row : List Cell} {it : LineItem}
    (h : scanRow row = some it) : item_invariant it := by
  unfold scanRow at h
  split at h
  · split at h
    · split at h
      · split at h
        · split at h
          · rename_i hd
            cases h
            refine ⟨rfl, hd.1, classify_mem_categories _⟩
          · cases h
        · cases h
      · cases h
    · cases h
  · cases h

/-- Splitting a sum of mapped absolute values along a Bool predicate. -/
lemma sum_map_filter_add (p : LineItem → Bool) (l : List LineItem) :
    ((l.filter p).map (fun it => it.Abs_Value)).sum
      + ((l.filter (fun it => !(p it))).map (fun it => it.Abs_Value)).sum
      = (l.map (fun it => it.Abs_Value)).sum := by
  induction l with
  | nil => simp
  | cons x t ih =>
      by_cases h : p x = true
      · simp only [List.filter_cons, h, Bool.not_true, if_pos, List.map_cons, List.sum_cons,
          Bool.false_eq_true, if_neg, ite_true, ite_false]
        linarith [ih]
      · have h' : p x = false := by simp [Bool.not_eq_true] at h; exact h
        simp only [List.filter_cons, h', Bool.not_false, List.map_cons, List.sum_cons,
          Bool.false_eq_true, ite_false, ite_true]
        linarith [ih]

/-- Summing the filtered sums over a duplicate-free list of keys that covers
every category of the frame recovers the total sum. -/
lemma sum_over_keys (keys : List String) :
    ∀ l : List LineItem, keys.Nodup → (∀ it ∈ l, it.Category ∈ keys) →
      (keys.map (fun c =>
          ((l.filter (fun it => it.Category == c)).map (fun it => it.Abs_Value)).sum)).sum
        = (l.map (fun it => it.Abs_Value)).sum := by
  induction keys with
  | nil =>
      intro l _ hcov
      have hl : l = [] := by
        cases l with
        | nil => rfl
        | cons x t => exact absurd (hcov x (by simp)) (by simp)
      subst hl; simp
  | cons c ks ih =>
      intro l hnd hcov
      have hnotmem : c ∉ ks := (List.nodup_cons.mp hnd).1
      have hndks : ks.Nodup := (List.nodup_cons.mp hnd).2
      have hfix : ∀ c' ∈ ks,
          l.filter (fun it => it.Category == c')
            = (l.filter (fun it => !(it.Category == c))).filter
                (fun it => it.Category == c') := by
        intro c' hc'
        have hne : c' ≠ c := fun h => hnotmem (h ▸ hc')
        rw [List.filter_filter]
        apply List.filter_congr
        intro it _
        by_cases h : it.Category = c'
        · simp [h, hne]
        · simp [h]
      have hcov2 : ∀ it ∈ l.filter (fun it => !(it.Category == c)), it.Category ∈ ks := by
        intro it hit
        have hmem : it ∈ l := (List.mem_filter.mp hit).1
        have hpred : (!(it.Category == c)) = true := (List.mem_filter.mp hit).2
        have hneq : it.Category ≠ c := by
          intro hcontra
          simp [hcontra] at hpred
        rcases List.mem_cons.mp (hcov it hmem) with h | h
        · exact absurd h hneq
        · exact h
      have hmap : ks.map (fun c' =>
            ((l.filter (fun it => it.Category == c')).map (fun it => it.Abs_Value)).sum)
          = ks.map (fun c' =>
            (((l.filter (fun it => !(it.Category == c))).filter
                (fun it => it.Category == c')).map (fun it => it.Abs_Value)).sum) := by
        apply List.map_congr_left
        intro c' hc'
        rw [hfix c' hc']
      calc ((c :: ks).map (fun c' =>
              ((l.filter (fun it => it.Category == c')).map (fun it => it.Abs_Value)).sum)).sum
          = ((l.filter (fun it => it.Category == c)).map (fun it => it.Abs_Value)).sum
            + (ks.map (fun c' =>
                ((l.filter (fun it => it.Category == c')).map (fun it => it.Abs_Value)).sum)).sum := by
            simp
        _ = ((l.filter (fun it => it.Category == c)).map (fun it => it.Abs_Value)).sum
            + ((l.filter (fun it => !(it.Category == c))).map (fun it => it.Abs_Value)).sum := by
            rw [hmap, ih (l.filter (fun it => !(it.Category == c))) hndks hcov2]
        _ = (l.map (fun it => it.Abs_Value)).sum := sum_map_filter_add _ l

/-- C7: a grid row produces a candidate line item if and only if cells 0 and
5 exist and are present, the value cell parses as a number, and the trimmed
description is non-empty, longer than 2 characters, not a boilerplate header
and not purely digits; a row that fails (for example on numeric parse) is
silently skipped and the scan of the remaining rows is unaffected. -/
theorem c7_scan_row_characterization :
    ∀ row : List Cell,
      ((scanRow row).isSome = true ↔ rowAccepted row) ∧
      (∀ rest : List (List Cell), scanRow row = none →
        (row :: rest).filterMap scanRow = rest.filterMap scanRow) := by
  intro row
  constructor
  · rcases hg5 : row[5]? with _ | c5
    · have hlen : row.length ≤ 5 := List.getElem?_eq_none_iff.mp hg5
      constructor
      · intro habs
        simp [scanRow, Nat.not_lt.mpr hlen] at habs
      · rintro ⟨hlt, _⟩
        omega
    · have hlen : 5 < row.length := by
        rcases List.getElem?_eq_some_iff.mp hg5 with ⟨h, _⟩
        exact h
      rcases hg0 : row[0]? with _ | c0
      · have : row.length ≤ 0 := List.getElem?_eq_none_iff.mp hg0
        omega
      · constructor
        · intro hsome
          refine ⟨hlen, c0, c5, hg0, hg5, ?_⟩
          simp only [scanRow, hg0, hg5, if_pos hlen] at hsome
          split at hsome
          case isTrue hpres =>
            split at hsome
            case h_1 v hf =>
              split at hsome
              case isTrue hd => exact ⟨hpres.1, hpres.2, by simp [hf], hd⟩
              case isFalse hd => simp at hsome
            case h_2 hf => simp at hsome
          case isFalse hpres => simp at hsome
        · rintro ⟨_, c0', c5', hg0', hg5', hp0, hp5, hfs, hd⟩
          rw [hg0] at hg0'
          rw [hg5] at hg5'
          cases hg0'
          cases hg5'
          rcases hf : c5.asFloat with _ | v
          · rw [hf] at hfs
            simp at hfs
          · simp [scanRow, hg0, hg5, if_pos hlen, hp0, hp5, hf, hd]
  · intro rest h
    simp [List.filterMap_cons, h]

/-- Witness for C7: the boilerplate header row is rejected by the scan, and
skipping it leaves the scan of the remaining rows unchanged. -/
theorem c7_scan_row_characterization_witness :
    (headerRow :: []).filterMap scanRow = ([] : List (List Cell)).filterMap scanRow :=
  (c7_scan_row_characterization headerRow).2 [] (by decide)

/-- C1: evaluating the code at the failing input: classify_line_item maps
"Interest Expense" to Expenses, not to Tax & Interest as the claim states,
because the Expenses keyword group (containing "expense") is tested before
the Tax & Interest group; yet the demonstration dataset of the same program
hardcodes Tax & Interest as the category of "Interest Expense". -/
theorem c1_interest_expense_divergence :
    classify_line_item "Interest Expense" = "Expenses" ∧
    ¬ classify_line_item "Interest Expense" = "Tax & Interest" ∧
    (create_sample_data.filter
        (fun it => it.Description == "Interest Expense")).map (fun it => it.Category)
      = ["Tax & Interest"] := by
  refine ⟨by decide, by decide, by decide⟩

/-- C6: the classifier agrees with case-insensitive first-match over the
ordered keyword table (priority Revenue, Expenses, ProfitLoss, TaxInterest,
Depreciation, default Other), always yields one of the six categories, and
maps "Net Revenue" to Revenue (Revenue is tested before ProfitLoss). -/
theorem c6_classifier_first_match :
    (∀ description, classify_line_item description = classify_spec description) ∧
    (∀ description, classify_line_item description ∈ categories) ∧
    classify_line_item "Net Revenue" = "Revenue" := by
  refine ⟨fun d => ?_, fun d => classify_mem_categories d, by decide⟩
  simp [classify_line_item, classify_spec, keyword_table, first_match]

/-- Counterexample for C2: with the category filter set to Expenses, the
displayed total revenue differs from the total revenue of the filtered
subsequence, so the metric cards do not reflect the filter state. -/
theorem c2_filtered_metrics_counterexample :
    (main_displayed_metrics twoItemFrame "Expenses").totalRevenue ≠
      (compute_metrics (filter_by_category twoItemFrame "Expenses")).totalRevenue := by
  simp [main_displayed_metrics, compute_metrics, filter_by_category, total_revenue, twoItemFrame]

/-- C2 as amended: the four headline metrics are recomputed on each run, but
always from the full session dataset; the category filter only produces the
subsequence used by the pie chart, bar chart and table. -/
theorem c2_metrics_from_full_frame :
    (∀ (df : List LineItem) (selected_category : String),
        main_displayed_metrics df selected_category = compute_metrics df) ∧
    (∀ (df : List LineItem) (selected_category : String), selected_category ≠ "All" →
        filter_by_category df selected_category
          = df.filter (fun it => it.Category == selected_category)) ∧
    (∀ df : List LineItem, filter_by_category df "All" = df) := by
  refine ⟨fun df s => rfl, fun df s hs => by simp [filter_by_category, hs], fun df => by simp [filter_by_category]⟩

/-- Witness for C2: instantiating the filter equation at a concrete frame
and the Expenses selection. -/
theorem c2_metrics_from_full_frame_witness :
    filter_by_category twoItemFrame "Expenses"
      = twoItemFrame.filter (fun it => it.Category == "Expenses") :=
  c2_metrics_from_full_frame.2.1 twoItemFrame "Expenses" (by decide)

/-- Counterexample for C3: on a frame whose total revenue is negative (hence
nonzero) the code yields margin 0 while the claimed formula yields 100. -/
theorem c3_negative_revenue_counterexample :
    total_revenue negativeRevenueFrame ≠ 0 ∧
    profit_margin negativeRevenueFrame = 0 ∧
    net_income negativeRevenueFrame / total_revenue negativeRevenueFrame * 100 = 100 := by
  refine ⟨?_, ?_, ?_⟩ <;>
    simp [profit_margin, net_income, total_revenue, total_expenses, negativeRevenueFrame]

/-- C3 as amended: the margin equals netIncome / totalRevenue * 100 only
when totalRevenue is strictly positive, and is 0 otherwise (in particular
when totalRevenue is zero or negative); the total function never divides by
zero, and create_kpi_chart computes the identical margin. -/
theorem c3_profit_margin_guard :
    (∀ df : List LineItem, 0 < total_revenue df →
        profit_margin df = net_income df / total_revenue df * 100) ∧
    (∀ df : List LineItem, ¬ 0 < total_revenue df → profit_margin df = 0) ∧
    (∀ df : List LineItem, create_kpi_chart_margin df = profit_margin df) := by
  refine ⟨fun df h => ?_, fun df h => ?_, fun df => rfl⟩
  · rw [profit_margin, if_pos h]
  · rw [profit_margin, if_neg h]

/-- Witness for C3: the demonstration dataset has positive total revenue, so
its margin follows the formula. -/
theorem c3_profit_margin_guard_witness :
    profit_margin create_sample_data =
      net_income create_sample_data / total_revenue create_sample_data * 100 :=
  c3_profit_margin_guard.1 create_sample_data
    (by simp [total_revenue, create_sample_data]; norm_num)

/-- Counterexample for C4: a grid whose single row carries the value 0 scans
to a dataset containing a line item of value 0, so zero-valued rows are not
excluded. -/
theorem c4_zero_value_included_counterexample :
    load_data_from_upload (Upload.grid [zeroRow]) = some [zeroItem] ∧
    zeroItem.Value = 0 := by
  exact ⟨by decide, rfl⟩

/-- C4 as amended: the scan applies no zero-value filter: a row whose cells
are present and whose description passes the filter is emitted even when its
value parses to exactly 0. -/
theorem c4_zero_rows_not_excluded :
    ∀ (row : List Cell) (c0 c5 : Cell),
      row[0]? = some c0 → row[5]? = some c5 → 5 < row.length →
      c0.present = true → c5.present = true → c5.asFloat = some 0 →
      descriptionOk (strTrim c0.asStr) →
      scanRow row = some { Description := strTrim c0.asStr, Value := 0,
                           Category := classify_line_item (strTrim c0.asStr),
                           Abs_Value := 0 } := by
  intro row c0 c5 hg0 hg5 hlen h0 h5 hf hd
  simp [scanRow, hg0, hg5, hlen, h0, h5, hf, hd]

/-- Witness for C4: the concrete zero-valued row is emitted by the scan. -/
theorem c4_zero_rows_not_excluded_witness :
    scanRow zeroRow
      = some { Description := strTrim "Cash at bank", Value := 0,
               Category := classify_line_item (strTrim "Cash at bank"),
               Abs_Value := 0 } :=
  c4_zero_rows_not_excluded zeroRow
    { present := true, asStr := "Cash at bank", asFloat := none }
    { present := true, asStr := "0", asFloat := some 0 }
    (by decide) (by decide) (by decide) rfl rfl rfl (by decide)

/-- Counterexample for C5: an unreadable source and a readable grid in which
no row passes the filters return the identical None sentinel, so the two
outcomes are not distinguishable from the scan result. -/
theorem c5_same_sentinel_counterexample :
    load_data_from_upload Upload.unreadable
      = load_data_from_upload (Upload.grid headerGrid) ∧
    load_data_from_upload (Upload.grid headerGrid) = none := by
  exact ⟨by decide, by decide⟩

/-- C5 as amended: both failure modes collapse to None at the scan
interface: an unreadable source returns None, and so does any readable grid
whose rows all fail the filters (the unreadable case differs only in an
error message emitted as a side effect, not in the returned value). -/
theorem c5_both_failures_return_none :
    load_data_from_upload Upload.unreadable = none ∧
    (∀ rows : List (List Cell), rows.filterMap scanRow = [] →
        load_data_from_upload (Upload.grid rows) = none) := by
  refine ⟨rfl, fun rows h => ?_⟩
  simp [load_data_from_upload, h]

/-- Witness for C5: the empty grid yields None. -/
theorem c5_both_failures_return_none_witness :
    load_data_from_upload (Upload.grid []) = none :=
  c5_both_failures_return_none.2 [] rfl

/-- C8: every line item in a scanned dataset and in the demonstration
dataset satisfies the invariant: stored absolute value equals abs of the
value, the description is non-empty, and the category is one of the six
enumerated labels. -/
theorem c8_item_invariant_holds :
    (∀ (u : Upload) (df : List LineItem), load_data_from_upload u = some df →
        ∀ it ∈ df, item_invariant it) ∧
    (∀ it ∈ create_sample_data, item_invariant it) := by
  constructor
  · rintro u df hload it hit
    cases u with
    | unreadable => simp [load_data_from_upload] at hload
    | grid rows =>
        simp only [load_data_from_upload] at hload
        split at hload
        · cases hload
          rcases List.mem_filterMap.mp hit with ⟨row, _, hrow⟩
          exact scanRow_invariant hrow
        · cases hload
  · intro it hit
    fin_cases hit <;>
      exact ⟨by rw [eq_comm, abs_eq (by norm_num)] ; norm_num, by decide, by decide⟩

/-- Witness for C8: the invariant holds of the item scanned from a concrete
one-row grid. -/
theorem c8_item_invariant_holds_witness :
    item_invariant salesItem :=
  c8_item_invariant_holds.1 (Upload.grid [salesRow]) [salesItem] (by decide)
    salesItem (by simp)

/-- C9: summing the per-category sums of absolute values over the distinct
categories of a frame recovers the sum of absolute values over the whole
frame: the categories partition the store. -/
theorem c9_group_totals_partition :
    ∀ df : List LineItem,
      ((category_totals df).map (fun p => p.2)).sum
        = (df.map (fun it => it.Abs_Value)).sum := by
  intro df
  unfold category_totals
  rw [List.map_map]
  have h := sum_over_keys ((df.map (fun it => it.Category)).dedup) df
      (List.nodup_dedup _)
      (fun it hit => List.mem_dedup.mpr (List.mem_map_of_mem _ hit))
  simpa using h

/-- C10: load_data_from_upload never returns an empty dataset: a some result
is non-empty, and the unreadable-source case (the only failure point of the
model, absorbed by the catch-all handler in the code) returns None rather
than propagating. -/
theorem c10_load_never_empty :
    (∀ (u : Upload) (df : List LineItem), load_data_from_upload u = some df → df ≠ []) ∧
    load_data_from_upload Upload.unreadable = none := by
  refine ⟨?_, rfl⟩
  rintro u df h
  cases u with
  | unreadable => simp [load_data_from_upload] at h
  | grid rows =>
      simp only [load_data_from_upload] at h
      split at h
      · rename_i hne
        cases h
        exact hne
      · cases h

/-- Witness for C10: the dataset scanned from a concrete one-row grid is
non-empty. -/
theorem c10_load_never_empty_witness :
    ([salesItem] : List LineItem) ≠ [] :=
  c10_load_never_empty.1 (Upload.grid [salesRow]) [salesItem] (by decide)

end FinReport

